import Mathlib

/-!
SDL front end of mGBA: lifecycle hooks and `main`.

A shallow embedding of `src/platform/sdl/main.c`.

* Pointers are optional addresses: `none` is the null pointer, `some a` points at
  the object located at `a`.
* The two objects the hooks touch, the `renderer` local of `main` and the
  `struct GBAThread context` local of `main`, live in a `Memory` together with
  their addresses.  Dereferencing a pointer that is null, or that does not
  designate the object of the expected type, is undefined in C; the embedding
  returns `none` there.
* `main` is a straight-line sequence of calls into other translation units with
  two early returns.  It is embedded as the list of calls it performs, in order,
  together with its exit status, as a function of what the callees return.
-/

namespace SDLMain

/-! ## Data model -/

/-- Object addresses. -/
abbrev Addr := Nat

/-- The value of `&gba->audio`: the `audio` member of the machine object located at `gba`. -/
structure AudioRef where
  gba : Addr
deriving DecidableEq, Repr

/-- The fields of `struct GBASDLAudio` that `main.c` reads or writes. -/
structure GBASDLAudio where
  samples : Nat
  audio : Option AudioRef
  thread : Option Addr
deriving DecidableEq, Repr

/-- The fields of `struct GBASDLEvents` that `main.c` writes. -/
structure GBASDLEvents where
  bindings : Option Addr
  fullscreen : Int
  windowUpdated : Int
deriving DecidableEq, Repr

/-- The fields of `struct SDLSoftwareRenderer` that `main.c` reads or writes.
`outputBuffer` stands for `d.outputBuffer`. -/
structure SDLSoftwareRenderer where
  outputBuffer : Option Addr
  audio : GBASDLAudio
  events : GBASDLEvents
  viewportWidth : Int
  viewportHeight : Int
  ratio : Int
deriving DecidableEq, Repr

/-- The functions `main` installs as thread callbacks. -/
inductive Callback where
  | GBASDLStart
  | GBASDLClean
deriving DecidableEq, Repr

/-- The fields of `struct GBAThread` that `main.c` reads or writes. -/
structure GBAThread where
  gba : Option Addr
  renderer : Option Addr
  startCallback : Option Callback
  cleanCallback : Option Callback
  userData : Option Addr
  debugger : Option Addr
  audioBuffers : Nat
deriving DecidableEq, Repr

/-- The renderer and the thread context of one run, with their addresses. -/
structure Memory where
  rendererAt : Addr
  renderer : SDLSoftwareRenderer
  contextAt : Addr
  context : GBAThread
deriving DecidableEq, Repr

/-! ## The lifecycle hooks -/

/-- Reads `threadContext->userData` as a renderer pointer: defined when
`threadContext` designates the thread context and its `userData` designates the renderer. -/
def rendererOf (threadContext : Addr) (m : Memory) : Option Addr :=
  if threadContext = m.contextAt then
    match m.context.userData with
    | some r => if r = m.rendererAt then some r else none
    | none => none
  else none

/-- The write `renderer->audio.audio = v`. -/
def setAudio (v : Option AudioRef) (m : Memory) : Memory :=
  { m with renderer := { m.renderer with audio := { m.renderer.audio with audio := v } } }

/-- The write `renderer->audio.thread = v`. -/
def setThread (v : Option Addr) (m : Memory) : Memory :=
  { m with renderer := { m.renderer with audio := { m.renderer.audio with thread := v } } }

/-- The hook `_GBASDLStart` (lines 138-142). -/
def _GBASDLStart (threadContext : Addr) (m : Memory) : Option Memory :=
  match rendererOf threadContext m with
  | none => none
  | some _ =>
    match m.context.gba with
    | none => none
    | some g => some (setThread (some threadContext) (setAudio (some ⟨g⟩) m))

/-- The hook `_GBASDLClean` (lines 144-147). -/
def _GBASDLClean (threadContext : Addr) (m : Memory) : Option Memory :=
  match rendererOf threadContext m with
  | none => none
  | some _ => some (setAudio none m)

/-- The initializer of `struct GBAThread context` in `main` (lines 79-84); members
that are not named are zero.  `rendererAt` is the address of the `renderer` local;
`context.renderer` points at its member `d.d` and is recorded by the address of
the enclosing object. -/
def mainContext (rendererAt : Addr) : GBAThread :=
  { gba := none
    renderer := some rendererAt
    startCallback := some Callback.GBASDLStart
    cleanCallback := some Callback.GBASDLClean
    userData := some rendererAt
    debugger := none
    audioBuffers := 0 }

/-! ## The session state machine -/

/-- The states of an emulation context, in the order the specification lists them. -/
inductive Phase where
  | Created
  | Starting
  | Running
  | Stopping
  | Cleaned
  | Joined
  | Destroyed
deriving DecidableEq, Repr

/-- A session: the state of the emulation context and the memory the hooks act on. -/
structure Session where
  phase : Phase
  memory : Memory
deriving DecidableEq, Repr

/-- Modelled from the spec: the worker driver behind `GBAThreadStart` and
`GBAThreadJoin` lives in `gba-thread.c`, which is not part of the sources at hand.
The specification gives the chain `Created → Starting → Running (after onStart) →
Stopping (stop requested or fault) → Cleaned (after onClean) → Joined → Destroyed`,
strictly forward, with the worker constructing the machine before it invokes
onStart.  One step moves to the next state of the chain: entering `Starting`
stores the machine in `context.gba`, entering `Running` runs `_GBASDLStart`,
entering `Cleaned` runs `_GBASDLClean`, and the other steps leave the renderer
and the thread context as they are.  `Destroyed` has no successor. -/
def Session.advance (machine : Addr) (s : Session) : Option Session :=
  match s.phase with
  | Phase.Created =>
    some ⟨Phase.Starting, { s.memory with context := { s.memory.context with gba := some machine } }⟩
  | Phase.Starting =>
    (_GBASDLStart s.memory.contextAt s.memory).map fun m => ⟨Phase.Running, m⟩
  | Phase.Running => some ⟨Phase.Stopping, s.memory⟩
  | Phase.Stopping =>
    (_GBASDLClean s.memory.contextAt s.memory).map fun m => ⟨Phase.Cleaned, m⟩
  | Phase.Cleaned => some ⟨Phase.Joined, s.memory⟩
  | Phase.Joined => some ⟨Phase.Destroyed, s.memory⟩
  | Phase.Destroyed => none

/-- The state reached from `s` after `n` lifecycle steps, if the session gets that far. -/
def Session.run (machine : Addr) : Nat → Session → Option Session
  | 0, s => some s
  | n + 1, s =>
    match Session.advance machine s with
    | none => none
    | some t => Session.run machine n t

/-! ## `main` -/

/-- The calls `main` makes, together with the construction of the thread context
(`contextInit`, the declaration with initializer at lines 79-84).  `free_debugger` is
`free(context.debugger)` and `free_outputBuffer` is `free(renderer->d.outputBuffer)`. -/
inductive Call where
  | GBAVideoSoftwareRendererCreate
  | GBAInputMapInit
  | GBAConfigInit
  | GBAConfigLoad
  | GBAConfigLoadDefaults
  | GBAConfigMap
  | initParserForGraphics
  | parseArguments
  | usage
  | freeArguments
  | GBAConfigFreeOpts
  | GBAConfigDeinit
  | SDL_Init
  | GBASDLInit
  | contextInit
  | createDebugger
  | GBAMapOptionsToContext
  | GBAMapArgumentsToContext
  | GBASDLInitAudio
  | GBASDLInitindings
  | GBASDLInitEvents
  | GBASDLEventsLoadConfig
  | GBAThreadStart
  | GBASDLRunloop
  | GBAThreadJoin
  | free_debugger
  | GBAInputMapDeinit
  | free_outputBuffer
  | GBASDLDeinitEvents
  | GBASDLDeinitAudio
  | SDL_DestroyWindow
  | GBASDLDeinit
  | SDL_Quit
deriving DecidableEq, Repr

/-- How the worker thread of a run ended. -/
inductive WorkerOutcome where
  | userStopped
  | faulted
deriving DecidableEq, Repr

/-- What the rest of the program does in one run of `main`: the build-time choice
`SDL_VERSION_ATLEAST(2, 0, 0)`, the values the callees return, and how the worker
ends once it has been started. -/
structure Env where
  sdl2 : Bool
  parseArguments : Bool
  sdlInit : Int
  gbaSDLInit : Bool
  gbaSDLInitAudio : Bool
  worker : WorkerOutcome
deriving DecidableEq, Repr

/-- One run of `main`: its return value and the calls it made, in order. -/
structure Run where
  status : Int
  calls : List Call
deriving DecidableEq, Repr

/-- The function `_GBASDLInit` (lines 115-121): its result and the calls it makes. -/
def _GBASDLInit (env : Env) : Bool × List Call :=
  if env.sdlInit < 0 then (false, [Call.SDL_Init])
  else (env.gbaSDLInit, [Call.SDL_Init, Call.GBASDLInit])

/-- The function `_GBASDLDeinit` (lines 123-136): the calls it makes. -/
def _GBASDLDeinit (env : Env) : List Call :=
  [Call.free_outputBuffer, Call.GBASDLDeinitEvents, Call.GBASDLDeinitAudio]
    ++ (if env.sdl2 then [Call.SDL_DestroyWindow] else [])
    ++ [Call.GBASDLDeinit, Call.SDL_Quit]

/-- The function `main` (lines 30-113).  The value of `GBASDLInitAudio` is dropped
at line 92, and `GBAThreadJoin` is called as a statement at line 103, so neither
`env.gbaSDLInitAudio` nor `env.worker` is read. -/
def main (env : Env) : Run :=
  let setup :=
    [Call.GBAVideoSoftwareRendererCreate, Call.GBAInputMapInit, Call.GBAConfigInit,
     Call.GBAConfigLoad, Call.GBAConfigLoadDefaults, Call.GBAConfigMap,
     Call.initParserForGraphics, Call.parseArguments]
  if !env.parseArguments then
    ⟨1, setup ++ [Call.usage, Call.freeArguments, Call.GBAConfigFreeOpts, Call.GBAConfigDeinit]⟩
  else
    let init := _GBASDLInit env
    if !init.1 then
      ⟨1, setup ++ init.2 ++ [Call.freeArguments, Call.GBAConfigFreeOpts, Call.GBAConfigDeinit]⟩
    else
      ⟨0, setup ++ init.2
        ++ [Call.contextInit, Call.createDebugger, Call.GBAMapOptionsToContext,
            Call.GBAMapArgumentsToContext, Call.GBASDLInitAudio, Call.GBASDLInitindings,
            Call.GBASDLInitEvents, Call.GBASDLEventsLoadConfig,
            Call.GBAThreadStart, Call.GBASDLRunloop, Call.GBAThreadJoin,
            Call.freeArguments, Call.GBAConfigFreeOpts, Call.GBAConfigDeinit,
            Call.free_debugger, Call.GBAInputMapDeinit]
        ++ _GBASDLDeinit env⟩

/-- The calls that reclaim a resource of the session. -/
def Call.reclaims : Call → Bool
  | Call.freeArguments | Call.GBAConfigFreeOpts | Call.GBAConfigDeinit
  | Call.free_debugger | Call.GBAInputMapDeinit | Call.free_outputBuffer
  | Call.GBASDLDeinitEvents | Call.GBASDLDeinitAudio | Call.SDL_DestroyWindow
  | Call.GBASDLDeinit | Call.SDL_Quit => true
  | _ => false

/-- Startup succeeds when the arguments parse and `_GBASDLInit` returns true. -/
def startupOk (env : Env) : Bool :=
  env.parseArguments && (_GBASDLInit env).1

/-- The states the chain places after the clean hook. -/
def Phase.cleaned : Phase → Bool
  | Phase.Cleaned | Phase.Joined | Phase.Destroyed => true
  | _ => false

/-- In the call list `l`, both `a` and `b` occur and the first `a` comes before the first `b`. -/
def precedes (a b : Call) (l : List Call) : Bool :=
  decide (a ∈ l) && decide (b ∈ l) && decide (l.indexOf a < l.indexOf b)

/-! ## Example inputs -/

/-- A renderer whose audio bridge holds no source and no thread. -/
def idleRenderer : SDLSoftwareRenderer :=
  { outputBuffer := some 900
    audio := { samples := 512, audio := none, thread := none }
    events := { bindings := some 300, fullscreen := 0, windowUpdated := 0 }
    viewportWidth := 240
    viewportHeight := 160
    ratio := 1 }

/-- The renderer at address 100 and the context of `main` at address 200, before the worker starts. -/
def idleMemory : Memory :=
  { rendererAt := 100, renderer := idleRenderer, contextAt := 200, context := mainContext 100 }

/-- The same memory once the worker has constructed the machine at address 700. -/
def readyMemory : Memory :=
  { idleMemory with context := { mainContext 100 with gba := some 700 } }

/-- The memory `_GBASDLStart` leaves behind when run on `readyMemory`. -/
def startedMemory : Memory :=
  { readyMemory with renderer := { idleRenderer with
      audio := { samples := 512, audio := some ⟨700⟩, thread := some 200 } } }

/-- The memory `_GBASDLClean` leaves behind when run on `startedMemory`. -/
def cleanedMemory : Memory :=
  { readyMemory with renderer := { idleRenderer with
      audio := { samples := 512, audio := none, thread := some 200 } } }

/-- A session in state `Created` over `idleMemory`. -/
def idleSession : Session := ⟨Phase.Created, idleMemory⟩

/-- A run in which every startup call succeeds and the user stops the worker. -/
def goodEnv : Env :=
  { sdl2 := true, parseArguments := true, sdlInit := 0, gbaSDLInit := true,
    gbaSDLInitAudio := true, worker := WorkerOutcome.userStopped }

/-- A run in which every startup call succeeds and the worker faults. -/
def faultEnv : Env := { goodEnv with worker := WorkerOutcome.faulted }

/-- A run in which only `GBASDLInitAudio` fails. -/
def noAudioEnv : Env := { goodEnv with gbaSDLInitAudio := false }

/-- A run in which `SDL_Init` fails. -/
def noVideoEnv : Env := { goodEnv with sdlInit := -1 }

/-! ## Basic facts about the hooks -/

theorem rendererOf_eq {t : Addr} {m : Memory} (ht : t = m.contextAt)
    (hu : m.context.userData = some m.rendererAt) : rendererOf t m = some m.rendererAt := by
  simp [rendererOf, ht, hu]

theorem rendererOf_setAudio (t : Addr) (v : Option AudioRef) (m : Memory) :
    rendererOf t (setAudio v m) = rendererOf t m := rfl

theorem GBASDLClean_eq {t : Addr} {m m' : Memory} (h : _GBASDLClean t m = some m') :
    rendererOf t m ≠ none ∧ m' = setAudio none m := by
  unfold _GBASDLClean at h
  cases hr : rendererOf t m with
  | none => simp [hr] at h
  | some r => simp [hr] at h; exact ⟨by simp, h.symm⟩

theorem GBASDLStart_eq {t : Addr} {m m' : Memory} (h : _GBASDLStart t m = some m') :
    rendererOf t m ≠ none ∧
      ∃ g, m.context.gba = some g ∧ m' = setThread (some t) (setAudio (some ⟨g⟩) m) := by
  unfold _GBASDLStart at h
  cases hr : rendererOf t m with
  | none => simp [hr] at h
  | some r =>
    cases hg : m.context.gba with
    | none => simp [hr, hg] at h
    | some g => simp [hr, hg] at h; exact ⟨by simp, g, rfl, h.symm⟩

/-! ## The start hook -/

/-- C2: when `threadContext` is the thread context, its `userData` is the renderer
and its machine exists at `g`, `_GBASDLStart` returns, and afterwards
`renderer.audio.audio` is non-null and is `&context.gba->audio`, whatever the
renderer held before. -/
theorem GBASDLStart_publishes_machine_audio (t : Addr) (m : Memory) (g : Addr)
    (ht : t = m.contextAt) (hu : m.context.userData = some m.rendererAt)
    (hg : m.context.gba = some g) :
    ∃ m', _GBASDLStart t m = some m' ∧
      m'.renderer.audio.audio = some ⟨g⟩ ∧ m'.renderer.audio.audio ≠ none ∧
      m'.context.gba = some g := by
  refine ⟨setThread (some t) (setAudio (some ⟨g⟩) m), ?_, rfl, ?_, hg⟩
  · simp [_GBASDLStart, rendererOf_eq ht hu, hg]
  · simp [setThread, setAudio]

/-- The start hook run on `readyMemory` with a stale source and thread in the bridge. -/
theorem GBASDLStart_publishes_machine_audio_witness :
    ∃ m', _GBASDLStart 200 { readyMemory with renderer := { idleRenderer with
        audio := { samples := 512, audio := some ⟨5⟩, thread := some 6 } } } = some m' ∧
      m'.renderer.audio.audio = some ⟨700⟩ ∧ m'.renderer.audio.audio ≠ none ∧
      m'.context.gba = some 700 :=
  GBASDLStart_publishes_machine_audio 200 _ 700 rfl rfl rfl

/-! ## The clean hook -/

/-- C9: when `threadContext` is the thread context and its `userData` is the
renderer, `_GBASDLClean` returns a memory that differs from the one it was given
in `renderer.audio.audio` only, which is null: the addresses, the thread context
and every other renderer field, `renderer.audio.thread` included, are unchanged.
Run after `_GBASDLStart`, it leaves `renderer.audio.thread` pointing at the thread
context; run a second time, it changes nothing. -/
theorem GBASDLClean_frame (t : Addr) (m : Memory)
    (ht : t = m.contextAt) (hu : m.context.userData = some m.rendererAt) :
    ∃ m', _GBASDLClean t m = some m' ∧
      m'.renderer.audio.audio = none ∧
      m'.rendererAt = m.rendererAt ∧ m'.contextAt = m.contextAt ∧ m'.context = m.context ∧
      m'.renderer.outputBuffer = m.renderer.outputBuffer ∧
      m'.renderer.audio.samples = m.renderer.audio.samples ∧
      m'.renderer.audio.thread = m.renderer.audio.thread ∧
      m'.renderer.events = m.renderer.events ∧
      m'.renderer.viewportWidth = m.renderer.viewportWidth ∧
      m'.renderer.viewportHeight = m.renderer.viewportHeight ∧
      m'.renderer.ratio = m.renderer.ratio ∧
      (∀ m0, _GBASDLStart t m0 = some m → m'.renderer.audio.thread = some t) ∧
      _GBASDLClean t m' = some m' := by
  refine ⟨setAudio none m, ?_, rfl, rfl, rfl, rfl, rfl, rfl, rfl, rfl, rfl, rfl, rfl, ?_, ?_⟩
  · simp [_GBASDLClean, rendererOf_eq ht hu]
  · intro m0 h0
    obtain ⟨_, g, _, hm⟩ := GBASDLStart_eq h0
    rw [hm]
    rfl
  · have h : rendererOf t (setAudio none m) = some m.rendererAt := by
      rw [rendererOf_setAudio]; exact rendererOf_eq ht hu
    simp only [_GBASDLClean, h]
    rfl

/-- The clean hook run on `startedMemory`, the memory the start hook leaves behind. -/
theorem GBASDLClean_frame_witness :
    ∃ m', _GBASDLClean 200 startedMemory = some m' ∧
      m'.renderer.audio.audio = none ∧ m'.renderer.audio.thread = some 200 ∧
      m'.context = startedMemory.context ∧ _GBASDLClean 200 m' = some m' := by
  obtain ⟨m', h1, h2, _, _, h5, _, _, h8, _, _, _, _, h13, h14⟩ :=
    GBASDLClean_frame 200 startedMemory rfl rfl
  exact ⟨m', h1, h2, h13 readyMemory rfl, h5, h14⟩

/-! ## Sessions -/

theorem Session.run_succ_last (machine : Addr) (n : Nat) (s t : Session)
    (h : Session.run machine (n + 1) s = some t) :
    ∃ p, Session.run machine n s = some p ∧ Session.advance machine p = some t := by
  induction n generalizing s with
  | zero =>
    refine ⟨s, rfl, ?_⟩
    simp only [Session.run] at h
    cases ha : Session.advance machine s with
    | none => simp [ha] at h
    | some u => simpa [ha, Session.run] using h
  | succ k ih =>
    rw [Session.run] at h
    cases ha : Session.advance machine s with
    | none => simp [ha] at h
    | some u =>
      simp only [ha] at h
      obtain ⟨p, hp, hpt⟩ := ih u h
      exact ⟨p, by rw [Session.run, ha]; exact hp, hpt⟩

theorem Session.advance_into_cleaned (machine : Addr) (s t : Session)
    (h : Session.advance machine s = some t) (hc : t.phase = Phase.Cleaned) :
    t.memory.renderer.audio.audio = none := by
  unfold Session.advance at h
  cases hp : s.phase <;> simp only [hp] at h
  case Stopping =>
    cases hcl : _GBASDLClean s.memory.contextAt s.memory with
    | none => simp [hcl] at h
    | some m' =>
      simp [hcl] at h
      obtain ⟨_, hm⟩ := GBASDLClean_eq hcl
      rw [← h, hm]
      rfl
  case Starting =>
    cases hst : _GBASDLStart s.memory.contextAt s.memory with
    | none => simp [hst] at h
    | some m' => simp [hst] at h; subst h; simp at hc
  all_goals
    simp at h
    try (subst h; simp at hc)

theorem Session.advance_after_clean (machine : Addr) (s t : Session)
    (h : Session.advance machine s = some t) (hc : s.phase.cleaned = true) :
    t.phase.cleaned = true ∧ t.memory = s.memory := by
  unfold Session.advance at h
  cases hp : s.phase <;> simp only [hp] at h <;> simp [hp, Phase.cleaned] at hc
  all_goals
    simp at h
    try (subst h; exact ⟨rfl, rfl⟩)

theorem Session.run_after_clean (machine : Addr) (n : Nat) (s t : Session)
    (h : Session.run machine n s = some t) (hc : s.phase.cleaned = true) :
    t.phase.cleaned = true ∧ t.memory = s.memory := by
  induction n generalizing s with
  | zero =>
    simp [Session.run] at h
    rw [← h]
    exact ⟨hc, rfl⟩
  | succ k ih =>
    rw [Session.run] at h
    cases ha : Session.advance machine s with
    | none => simp [ha] at h
    | some u =>
      simp only [ha] at h
      obtain ⟨hu, hm⟩ := Session.advance_after_clean machine s u ha hc
      obtain ⟨ht, htm⟩ := ih u h hu
      exact ⟨ht, htm.trans hm⟩

/-- C1: in a session started from any state `s0`, a state `si` entered as
`Cleaned` by a lifecycle step, that is, by `_GBASDLClean` returning, has
`renderer.audio.audio` null, and so has every state `sj` the session reaches from
`si`.  The hook itself, called on the thread context whose `userData` is the
renderer, returns a memory whose `renderer.audio.audio` is null, whatever the
renderer held before and whether or not `_GBASDLStart` ran. -/
theorem clean_clears_source_for_rest_of_session (machine : Addr) (s0 si sj : Session)
    (i j : Nat) (hi : Session.run machine (i + 1) s0 = some si)
    (hc : si.phase = Phase.Cleaned) (hj : Session.run machine j si = some sj) :
    si.memory.renderer.audio.audio = none ∧ sj.memory.renderer.audio.audio = none ∧
      ∀ (t : Addr) (m : Memory), t = m.contextAt →
        m.context.userData = some m.rendererAt →
        ∃ m', _GBASDLClean t m = some m' ∧ m'.renderer.audio.audio = none := by
  obtain ⟨p, _, hp⟩ := Session.run_succ_last machine i s0 si hi
  have h1 := Session.advance_into_cleaned machine p si hp hc
  have h2 := (Session.run_after_clean machine j si sj hj (by rw [hc]; rfl)).2
  refine ⟨h1, by rw [h2]; exact h1, ?_⟩
  intro t m ht hu
  exact ⟨setAudio none m, by simp [_GBASDLClean, rendererOf_eq ht hu], rfl⟩

/-- The session from `idleSession`: `Cleaned` after four steps, `Destroyed` two steps later. -/
theorem clean_clears_source_for_rest_of_session_witness :
    (⟨Phase.Cleaned, cleanedMemory⟩ : Session).memory.renderer.audio.audio = none ∧
      (⟨Phase.Destroyed, cleanedMemory⟩ : Session).memory.renderer.audio.audio = none ∧
      ∀ (t : Addr) (m : Memory), t = m.contextAt →
        m.context.userData = some m.rendererAt →
        ∃ m', _GBASDLClean t m = some m' ∧ m'.renderer.audio.audio = none :=
  clean_clears_source_for_rest_of_session 700 idleSession ⟨Phase.Cleaned, cleanedMemory⟩
    ⟨Phase.Destroyed, cleanedMemory⟩ 3 2 (by decide) rfl (by decide)

/-- C3, as stated, fails: three lifecycle steps take the session that starts in
`Created` over `idleMemory` to `Stopping`, where `renderer.audio.audio` is still
the machine's audio although the state is not `Running`. -/
theorem source_non_null_in_stopping :
    Session.run 700 3 idleSession = some ⟨Phase.Stopping, startedMemory⟩ ∧
    startedMemory.renderer.audio.audio = some ⟨700⟩ ∧
    ¬ (∀ n s, Session.run 700 n idleSession = some s →
        (s.memory.renderer.audio.audio ≠ none ↔ s.phase = Phase.Running)) := by
  refine ⟨by decide, rfl, ?_⟩
  intro h
  have h3 := (h 3 ⟨Phase.Stopping, startedMemory⟩ (by decide)).1 (by decide)
  exact absurd h3 (by decide)

/-- C3, amended: a session that starts in `Created` with `renderer.audio.audio`
null and the context's `userData` pointing at the renderer goes through all seven
states, and in every state it reaches `renderer.audio.audio` is non-null if and
only if the state is `Running` or `Stopping`. -/
theorem source_non_null_iff_running_or_stopping (machine : Addr) (s0 : Session)
    (h0 : s0.phase = Phase.Created)
    (hu : s0.memory.context.userData = some s0.memory.rendererAt)
    (ha : s0.memory.renderer.audio.audio = none) :
    (∀ n s, Session.run machine n s0 = some s →
      (s.memory.renderer.audio.audio ≠ none ↔
        s.phase = Phase.Running ∨ s.phase = Phase.Stopping)) ∧
    (∃ s, Session.run machine 6 s0 = some s ∧ s.phase = Phase.Destroyed) := by
  obtain ⟨ph, m⟩ := s0
  simp only at h0 hu ha
  subst h0
  constructor
  · intro n s hs
    rcases n with _ | _ | _ | _ | _ | _ | _ | n <;>
      simp [Session.run, Session.advance, _GBASDLStart, _GBASDLClean, rendererOf, hu,
        setAudio, setThread] at hs <;>
      subst hs <;> simp [ha]
  · simp [Session.run, Session.advance, _GBASDLStart, _GBASDLClean, rendererOf, hu,
      setAudio, setThread]

/-- The session from `idleSession` with the machine at 700. -/
theorem source_non_null_iff_running_or_stopping_witness :
    (∀ n s, Session.run 700 n idleSession = some s →
      (s.memory.renderer.audio.audio ≠ none ↔
        s.phase = Phase.Running ∨ s.phase = Phase.Stopping)) ∧
    (∃ s, Session.run 700 6 idleSession = some s ∧ s.phase = Phase.Destroyed) :=
  source_non_null_iff_running_or_stopping 700 idleSession rfl rfl rfl

/-! ## `main` -/

theorem GBASDLInit_fails_iff (env : Env) :
    (_GBASDLInit env).1 = false ↔ env.sdlInit < 0 ∨ env.gbaSDLInit = false := by
  unfold _GBASDLInit
  by_cases h : env.sdlInit < 0 <;> simp [h]

theorem main_of_startup_failure (env : Env) (h : startupOk env = false) :
    (main env).status = 1 ∧ Call.GBAThreadStart ∉ (main env).calls ∧
      Call.contextInit ∉ (main env).calls := by
  unfold startupOk at h
  unfold main
  cases hp : env.parseArguments with
  | false => simp
  | true =>
    have hi : (_GBASDLInit env).1 = false := by simpa [hp] using h
    simp only [hi]
    unfold _GBASDLInit
    by_cases hs : env.sdlInit < 0 <;> simp [hs]

theorem main_of_startup_success (env : Env) (h : startupOk env = true) :
    main env = ⟨0,
      [Call.GBAVideoSoftwareRendererCreate, Call.GBAInputMapInit, Call.GBAConfigInit,
       Call.GBAConfigLoad, Call.GBAConfigLoadDefaults, Call.GBAConfigMap,
       Call.initParserForGraphics, Call.parseArguments, Call.SDL_Init, Call.GBASDLInit,
       Call.contextInit, Call.createDebugger, Call.GBAMapOptionsToContext,
       Call.GBAMapArgumentsToContext, Call.GBASDLInitAudio, Call.GBASDLInitindings,
       Call.GBASDLInitEvents, Call.GBASDLEventsLoadConfig]
      ++ [Call.GBAThreadStart, Call.GBASDLRunloop, Call.GBAThreadJoin]
      ++ ([Call.freeArguments, Call.GBAConfigFreeOpts, Call.GBAConfigDeinit,
           Call.free_debugger, Call.GBAInputMapDeinit] ++ _GBASDLDeinit env)⟩ := by
  unfold startupOk at h
  simp only [Bool.and_eq_true] at h
  obtain ⟨hp, hi⟩ := h
  have hs : ¬ env.sdlInit < 0 := by
    intro hlt
    simp [_GBASDLInit, hlt] at hi
  have h2 : (_GBASDLInit env).2 = [Call.SDL_Init, Call.GBASDLInit] := by
    simp [_GBASDLInit, hs]
  unfold main
  simp [hp, hi, h2]

theorem started_iff_startupOk (env : Env) :
    Call.GBAThreadStart ∈ (main env).calls ↔ startupOk env = true := by
  constructor
  · intro h
    by_contra hn
    exact (main_of_startup_failure env (by simpa using hn)).2.1 h
  · intro h
    rw [main_of_startup_success env h]
    simp

/-- C4: a run of `main` in which argument parsing fails or `_GBASDLInit` returns
false (that is, `SDL_Init` is negative or `GBASDLInit` is false) returns 1 and
never calls `GBAThreadStart`; a run that calls `GBAThreadStart` returns 0.  So the
exit status of a failed startup differs from that of every run that started the
worker, however that worker ended. -/
theorem main_startup_failure_status (env env' : Env)
    (hfail : env.parseArguments = false ∨ (_GBASDLInit env).1 = false)
    (hstarted : Call.GBAThreadStart ∈ (main env').calls) :
    (main env).status = 1 ∧ Call.GBAThreadStart ∉ (main env).calls ∧
      (main env').status = 0 ∧ (main env).status ≠ (main env').status ∧
      ((_GBASDLInit env).1 = false ↔ env.sdlInit < 0 ∨ env.gbaSDLInit = false) := by
  have hf : startupOk env = false := by
    unfold startupOk
    rcases hfail with h | h <;> simp [h]
  obtain ⟨h1, h2, _⟩ := main_of_startup_failure env hf
  have h3 : (main env').status = 0 := by
    rw [main_of_startup_success env' ((started_iff_startupOk env').1 hstarted)]
  refine ⟨h1, h2, h3, ?_, GBASDLInit_fails_iff env⟩
  rw [h1, h3]
  decide

/-- The run in which `SDL_Init` fails against the run whose worker faults. -/
theorem main_startup_failure_status_witness :
    (main noVideoEnv).status = 1 ∧ Call.GBAThreadStart ∉ (main noVideoEnv).calls ∧
      (main faultEnv).status = 0 ∧ (main noVideoEnv).status ≠ (main faultEnv).status ∧
      ((_GBASDLInit noVideoEnv).1 = false ↔
        noVideoEnv.sdlInit < 0 ∨ noVideoEnv.gbaSDLInit = false) :=
  main_startup_failure_status noVideoEnv faultEnv (Or.inr (by decide)) (by decide)

/-- C5 fails on the code: in the run where every startup call succeeds except
`GBASDLInitAudio`, which reports failure, `main` calls `GBASDLInitAudio`, then
still calls `GBAThreadStart`, and returns 0; its calls and status are those of the
run in which audio initialisation succeeds. -/
theorem audio_init_failure_still_starts_worker :
    noAudioEnv.gbaSDLInitAudio = false ∧
      Call.GBAThreadStart ∈ (main noAudioEnv).calls ∧
      precedes Call.GBASDLInitAudio Call.GBAThreadStart (main noAudioEnv).calls = true ∧
      (main noAudioEnv).status = 0 ∧ main noAudioEnv = main goodEnv := by
  decide

/-- C6, as stated, fails: the run whose worker faults and the run whose worker is
stopped by the user both start the worker, make the same calls and return 0. -/
theorem worker_outcome_not_reported :
    faultEnv.worker = WorkerOutcome.faulted ∧ goodEnv.worker = WorkerOutcome.userStopped ∧
      Call.GBAThreadJoin ∈ (main faultEnv).calls ∧ Call.GBAThreadJoin ∈ (main goodEnv).calls ∧
      (main faultEnv).status = 0 ∧ (main goodEnv).status = 0 ∧
      main faultEnv = main goodEnv ∧
      ¬ ((main faultEnv).status ≠ (main goodEnv).status) := by
  decide

/-- C6, amended: in every run of `main` that started the worker, `main` returns 0,
and replacing the worker's outcome by any other changes neither the status nor
the calls: what `main` reports does not depend on how the worker ended. -/
theorem main_status_independent_of_worker (env : Env) (o : WorkerOutcome)
    (hstarted : Call.GBAThreadStart ∈ (main env).calls) :
    (main env).status = 0 ∧ main { env with worker := o } = main env ∧
      Call.GBAThreadJoin ∈ (main { env with worker := o }).calls := by
  have heq : main { env with worker := o } = main env := rfl
  have hok := (started_iff_startupOk env).1 hstarted
  refine ⟨by rw [main_of_startup_success env hok], heq, ?_⟩
  rw [heq, main_of_startup_success env hok]
  simp

/-- The run in which every startup call succeeds, with the worker outcome replaced by a fault. -/
theorem main_status_independent_of_worker_witness :
    (main goodEnv).status = 0 ∧
      main { goodEnv with worker := WorkerOutcome.faulted } = main goodEnv ∧
      Call.GBAThreadJoin ∈ (main { goodEnv with worker := WorkerOutcome.faulted }).calls :=
  main_status_independent_of_worker goodEnv WorkerOutcome.faulted (by decide)

/-- C7: in every run of `main` whose startup succeeds, whatever the worker's
outcome, the calls are some `pre`, then `GBAThreadStart`, `GBASDLRunloop`,
`GBAThreadJoin`, then some `post`.  `GBAThreadStart` and `GBAThreadJoin` are each
called exactly once, `pre` reclaims nothing, and `freeArguments`,
`GBAConfigFreeOpts`, `GBAConfigDeinit`, `free(context.debugger)`,
`GBAInputMapDeinit` and all of `_GBASDLDeinit`, with its
`free(renderer->d.outputBuffer)` and `GBASDLDeinitAudio`, are in `post`. -/
theorem main_reclaims_after_join (env : Env) (hok : startupOk env = true) :
    ∃ pre post, (main env).calls
        = pre ++ [Call.GBAThreadStart, Call.GBASDLRunloop, Call.GBAThreadJoin] ++ post ∧
      (main env).calls.count Call.GBAThreadStart = 1 ∧
      (main env).calls.count Call.GBASDLRunloop = 1 ∧
      (main env).calls.count Call.GBAThreadJoin = 1 ∧
      (∀ c ∈ pre, c.reclaims = false) ∧
      (∀ c ∈ (main env).calls, c.reclaims = true → c ∈ post) ∧
      (∀ c ∈ [Call.freeArguments, Call.GBAConfigFreeOpts, Call.GBAConfigDeinit,
          Call.free_debugger, Call.GBAInputMapDeinit], c ∈ post) ∧
      (∀ c ∈ _GBASDLDeinit env, c ∈ post) ∧
      Call.free_outputBuffer ∈ _GBASDLDeinit env ∧
      Call.GBASDLDeinitAudio ∈ _GBASDLDeinit env := by
  rw [main_of_startup_success env hok]
  refine ⟨_, _, rfl, ?_⟩
  unfold _GBASDLDeinit
  cases env.sdl2 <;> decide

/-- The run whose worker faults. -/
theorem main_reclaims_after_join_witness :
    ∃ pre post, (main faultEnv).calls
        = pre ++ [Call.GBAThreadStart, Call.GBASDLRunloop, Call.GBAThreadJoin] ++ post ∧
      (main faultEnv).calls.count Call.GBAThreadStart = 1 ∧
      (main faultEnv).calls.count Call.GBASDLRunloop = 1 ∧
      (main faultEnv).calls.count Call.GBAThreadJoin = 1 ∧
      (∀ c ∈ pre, c.reclaims = false) ∧
      (∀ c ∈ (main faultEnv).calls, c.reclaims = true → c ∈ post) ∧
      (∀ c ∈ [Call.freeArguments, Call.GBAConfigFreeOpts, Call.GBAConfigDeinit,
          Call.free_debugger, Call.GBAInputMapDeinit], c ∈ post) ∧
      (∀ c ∈ _GBASDLDeinit faultEnv, c ∈ post) ∧
      Call.free_outputBuffer ∈ _GBASDLDeinit faultEnv ∧
      Call.GBASDLDeinitAudio ∈ _GBASDLDeinit faultEnv :=
  main_reclaims_after_join faultEnv (by decide)

/-- C8, as stated, fails: in the run where every startup call succeeds, the thread
context is constructed as the eleventh step, while `GBASDLInitindings` is the
sixteenth and `GBASDLEventsLoadConfig`, which reads `config.configTable`, the
eighteenth; neither comes before the construction of the context. -/
theorem bindings_resolved_after_context_creation :
    (main goodEnv).calls.indexOf Call.contextInit = 10 ∧
      (main goodEnv).calls.indexOf Call.GBASDLInitindings = 15 ∧
      (main goodEnv).calls.indexOf Call.GBASDLEventsLoadConfig = 17 ∧
      precedes Call.GBASDLInitindings Call.contextInit (main goodEnv).calls = false ∧
      precedes Call.GBASDLEventsLoadConfig Call.contextInit (main goodEnv).calls = false := by
  decide

/-- C8, amended: in every run of `main` that constructs the thread context, the
context is constructed first, then `GBASDLInitindings` is called, then
`GBASDLEventsLoadConfig`, then `GBAThreadStart`, each of them exactly once: the
bindings are resolved after the context is created and before the worker starts. -/
theorem bindings_resolved_before_worker_start (env : Env)
    (hctx : Call.contextInit ∈ (main env).calls) :
    precedes Call.contextInit Call.GBASDLInitindings (main env).calls = true ∧
      precedes Call.GBASDLInitindings Call.GBASDLEventsLoadConfig (main env).calls = true ∧
      precedes Call.GBASDLEventsLoadConfig Call.GBAThreadStart (main env).calls = true ∧
      (main env).calls.count Call.contextInit = 1 ∧
      (main env).calls.count Call.GBASDLInitindings = 1 ∧
      (main env).calls.count Call.GBASDLEventsLoadConfig = 1 ∧
      (main env).calls.count Call.GBAThreadStart = 1 := by
  have hok : startupOk env = true := by
    by_contra hn
    exact (main_of_startup_failure env (by simpa using hn)).2.2 hctx
  rw [main_of_startup_success env hok]
  unfold _GBASDLDeinit
  cases env.sdl2 <;> decide

/-- The run in which every startup call succeeds. -/
theorem bindings_resolved_before_worker_start_witness :
    precedes Call.contextInit Call.GBASDLInitindings (main goodEnv).calls = true ∧
      precedes Call.GBASDLInitindings Call.GBASDLEventsLoadConfig (main goodEnv).calls = true ∧
      precedes Call.GBASDLEventsLoadConfig Call.GBAThreadStart (main goodEnv).calls = true ∧
      (main goodEnv).calls.count Call.contextInit = 1 ∧
      (main goodEnv).calls.count Call.GBASDLInitindings = 1 ∧
      (main goodEnv).calls.count Call.GBASDLEventsLoadConfig = 1 ∧
      (main goodEnv).calls.count Call.GBAThreadStart = 1 :=
  bindings_resolved_before_worker_start goodEnv (by decide)

end SDLMain
